import Mathlib

/-!
Verification of the ZamaLink confidential-donation contracts.

Two Solidity contract variants are embedded as pure state-transition
functions:

* namespace Eth — the ETH + oracle-callback variant
  (contract PrivateCampaignDonation in the ETH source file): donations
  arrive with an escrowed ETH value and an encrypted amount, a pending
  record is stored, and an asynchronous oracle callback either finalizes
  (homomorphic accumulation + push payment to the organizer) or refunds
  the donor.

* namespace Tok — the confidential-ERC20 variant
  (contract PrivateCampaignDonation in the token source file): donations
  move confidential tokens synchronously; the active-campaign list keeps
  an O(1) swap-remove index.

Modelling conventions:
* addresses, bytes32 ids, wei amounts and timestamps are Nat (address 0 is
  the null address; a campaign exists iff its organizer is nonzero, exactly
  as the validCampaign modifier checks);
* machine integers wrap explicitly: euint64 / euint32 / euint128
  homomorphic addition reduces modulo 2 ^ w;
* a ciphertext is modelled as a ghost plaintext value together with the
  list of principals granted decryption access (FHE.allow / FHE.allowThis
  prepend a principal; the access-control registry is flattened onto the
  value it guards);
* reverting calls return Except.error and by construction leave no state;
* the external world (whether an address accepts a plain value transfer,
  whether the confidential token transfer succeeds, whether an input proof
  or oracle signature validates) enters as explicit boolean parameters;
* events that no claim observes are omitted in the Eth variant; the Tok
  variant keeps an event list because the reveal path is specified through
  its emitted handles.
-/

/-- Pointwise update of a map modelled as a function. -/
def upd {α : Type} (f : Nat → α) (k : Nat) (v : α) : Nat → α :=
  fun x => if x = k then v else f x

@[simp] theorem upd_apply {α : Type} (f : Nat → α) (k v x) :
    upd f k v x = if x = k then v else f x := rfl

/-- A ciphertext: ghost plaintext value plus decrypt-access list. -/
structure EU where
  val : Nat
  acl : List Nat
  deriving Repr, DecidableEq

/-- FHE.asEuintW n : trivial encryption of a plaintext constant (width w). -/
def asEuint (w n : Nat) : EU := ⟨n % 2 ^ w, []⟩

/-- FHE.add : homomorphic addition at width w (fresh ciphertext, empty ACL). -/
def addE (w : Nat) (a b : EU) : EU := ⟨(a.val + b.val) % 2 ^ w, []⟩

/-- FHE.allow / FHE.allowThis : grant principal p decrypt access. -/
def allowE (p : Nat) (e : EU) : EU := ⟨e.val, p :: e.acl⟩

/-- Move v wei from src to dst in a balance map (a self-transfer is a
no-op, as in the EVM). -/
def moveBal (bal : Nat → Nat) (src dst v : Nat) : Nat → Nat :=
  fun a =>
    if src = dst then bal a
    else if a = src then bal a - v
    else if a = dst then bal a + v
    else bal a

/-- 10 ether in wei: the donation cap of the ETH variant. -/
def tenEther : Nat := 10 * 10 ^ 18

/-- Campaign categories (shared enum of both variants). -/
inductive Category
  | disasterRelief | medical | education | environment | social | emergency | other
  deriving Repr, DecidableEq

/-- Unwrap an Except result, with a fallback for the error case (used only
to name concrete result states in witnesses). -/
def okOr {ε σ : Type} (d : σ) : Except ε σ → σ
  | .ok s => s
  | .error _ => d

namespace Eth

/-- Campaign record of the ETH variant. -/
structure Campaign where
  id : Nat
  organizer : Nat
  title : String
  description : String
  imageUrl : String
  targetAmount : Nat
  deadline : Nat
  totalDonations : EU
  donationCount : EU
  publicDonatorCount : Nat
  isActive : Bool
  isCompleted : Bool
  finalAmountRevealed : Bool
  revealedFinalAmount : Nat
  category : Category

/-- The empty storage slot for a campaign id (organizer 0 = nonexistent). -/
def c0 : Campaign :=
  ⟨0, 0, "", "", "", 0, 0, ⟨0, []⟩, ⟨0, []⟩, 0, false, false, false, 0, .other⟩

/-- History entry (struct Donation). -/
structure Donation where
  donor : Nat
  campaignId : Nat
  amount : EU
  timestamp : Nat
  isAnonymous : Bool

/-- In-flight record awaiting the oracle callback (struct PendingDonation). -/
structure PendingDonation where
  donor : Nat
  campaignId : Nat
  ethAmount : Nat
  encryptedAmount : EU
  isActive : Bool
  isAnonymous : Bool

/-- The empty pending slot (what delete pendingDonations leaves behind). -/
def pd0 : PendingDonation := ⟨0, 0, 0, ⟨0, []⟩, false, false⟩

/-- Full contract storage plus account balances of the surrounding chain. -/
structure State where
  campaigns : Nat → Campaign
  campaignDonations : Nat → List Donation
  donorDonations : Nat → List Nat
  hasDonatedTo : Nat → Nat → Bool
  organizerCampaigns : Nat → List Nat
  allCampaigns : List Nat
  activeCampaigns : List Nat
  campaignMilestones : Nat → List Nat
  pendingDonations : Nat → PendingDonation
  nextRequestId : Nat
  decryptionRequests : List Nat
  paused : Bool
  locked : Bool
  owner : Nat
  self : Nat
  balances : Nat → Nat

/-- Revert reasons of the ETH variant. -/
inductive Err
  | duplicateId | emptyTitle | invalidTarget | invalidDuration
  | notFound | notActive | deadlinePassed | notOrganizer
  | pausedErr | reentrant | zeroValue | tooLarge | invalidProof
  | invalidOrProcessed | badSignature | transferFailed | refundFailed
  | alreadyCompleted | stillActive | alreadyRevealed | insufficientFunds
  deriving Repr, DecidableEq

/-- EVM credit of msg.value to the contract before the function body runs;
fails only when the sender lacks the funds. -/
def payIn (s : State) (sender v : Nat) : Option State :=
  if v ≤ s.balances sender then
    some { s with balances := moveBal s.balances sender s.self v }
  else none

/-- An external value-bearing call (to.call with value v): succeeds iff the
recipient accepts plain value and the contract holds at least v. -/
def extCall (env : Nat → Bool) (s : State) (dst v : Nat) : Option State :=
  if env dst = true ∧ v ≤ s.balances s.self then
    some { s with balances := moveBal s.balances s.self dst v }
  else none

/-- createCampaign of the ETH variant. -/
def createCampaign (s : State) (sender now cid : Nat)
    (title description imageUrl : String) (targetAmount duration : Nat)
    (category : Category) : Except Err State :=
  if (s.campaigns cid).organizer ≠ 0 then .error .duplicateId
  else if title = "" then .error .emptyTitle
  else if targetAmount = 0 then .error .invalidTarget
  else if duration = 0 then .error .invalidDuration
  else
    let deadline := now + duration
    let initialDonations := allowE s.self (allowE sender (asEuint 64 0))
    let initialCount := allowE s.self (allowE sender (asEuint 32 0))
    .ok { s with
      campaigns := upd s.campaigns cid
        ⟨cid, sender, title, description, imageUrl, targetAmount, deadline,
         initialDonations, initialCount, 0, true, false, false, 0, category⟩,
      campaignMilestones := upd s.campaignMilestones cid
        [targetAmount * 25 / 100, targetAmount * 50 / 100,
         targetAmount * 75 / 100, targetAmount],
      allCampaigns := s.allCampaigns ++ [cid],
      activeCampaigns := s.activeCampaigns ++ [cid],
      organizerCampaigns := upd s.organizerCampaigns sender
        (s.organizerCampaigns sender ++ [cid]) }

/-- donate of the ETH variant: escrow msg.value, import the ciphertext,
store a pending record and queue an oracle decryption request. -/
def donate (s : State) (sender now value cid encVal : Nat)
    (proofOk : Bool) (isAnonymous : Bool) : Except Err State :=
  match payIn s sender value with
  | none => .error .insufficientFunds
  | some s0 =>
    if (s0.campaigns cid).organizer = 0 then .error .notFound
    else if (s0.campaigns cid).isActive = false then .error .notActive
    else if (s0.campaigns cid).deadline ≤ now then .error .deadlinePassed
    else if s0.locked = true then .error .reentrant
    else if s0.paused = true then .error .pausedErr
    else if value = 0 then .error .zeroValue
    else if tenEther < value then .error .tooLarge
    else if proofOk = false then .error .invalidProof
    else
      let donationAmount : EU := ⟨encVal % 2 ^ 64, []⟩
      let requestId := s0.nextRequestId
      .ok { s0 with
        pendingDonations := upd s0.pendingDonations requestId
          ⟨sender, cid, value, donationAmount, true, isAnonymous⟩,
        nextRequestId := requestId + 1,
        decryptionRequests := s0.decryptionRequests ++ [requestId] }

/-- The bookkeeping of _processDonation that precedes its external value
transfer: homomorphic accumulation, public counter, history push, donor
index, and the donor decrypt-grant on the donated ciphertext. -/
def processDonationPre (s : State) (now : Nat) (pending : PendingDonation) : State :=
  let cid := pending.campaignId
  let c := s.campaigns cid
  { s with
    campaigns := upd s.campaigns cid
      { c with
        totalDonations := addE 64 c.totalDonations pending.encryptedAmount,
        donationCount := addE 32 c.donationCount (asEuint 32 1),
        publicDonatorCount := c.publicDonatorCount + 1 },
    campaignDonations := upd s.campaignDonations cid
      (s.campaignDonations cid ++
        [⟨pending.donor, cid, allowE pending.donor pending.encryptedAmount,
          now, pending.isAnonymous⟩]),
    donorDonations := upd s.donorDonations pending.donor
      (s.donorDonations pending.donor ++ [cid]),
    hasDonatedTo := upd s.hasDonatedTo pending.donor
      (upd (s.hasDonatedTo pending.donor) cid true) }

/-- verifyDonationCallback of the ETH variant. The guard reads the pending
record's isActive flag; on the finalize branch the bookkeeping of
processDonationPre is committed, then the external push payment to the
organizer runs (the recipient's code executes against exactly that
intermediate state), and only afterwards is the pending record deleted.
The refund branch pays the donor back and deletes the record.
_checkMilestones is an empty stub in the source and adds nothing here. -/
def verifyDonationCallback (env : Nat → Bool) (s : State)
    (now requestId decryptedAmount : Nat) (sigsOk : Bool) : Except Err State :=
  if (s.pendingDonations requestId).isActive = false then .error .invalidOrProcessed
  else if sigsOk = false then .error .badSignature
  else
    let pending := s.pendingDonations requestId
    if decryptedAmount = pending.ethAmount then
      let s1 := processDonationPre s now pending
      match extCall env s1 ((s1.campaigns pending.campaignId).organizer) pending.ethAmount with
      | none => .error .transferFailed
      | some s2 =>
        .ok { s2 with pendingDonations := upd s2.pendingDonations requestId pd0 }
    else
      match extCall env s pending.donor pending.ethAmount with
      | none => .error .refundFailed
      | some s2 =>
        .ok { s2 with pendingDonations := upd s2.pendingDonations requestId pd0 }

/-- donateSimple of the ETH variant: plain ETH fallback path. It bumps the
public counter, homomorphically increments the encrypted donation count,
appends a history record with an encrypted-zero placeholder amount, records
the donor index, and forwards the value to the organizer. -/
def donateSimple (env : Nat → Bool) (s : State) (sender now value cid : Nat)
    (isAnonymous : Bool) : Except Err State :=
  match payIn s sender value with
  | none => .error .insufficientFunds
  | some s0 =>
    if (s0.campaigns cid).organizer = 0 then .error .notFound
    else if (s0.campaigns cid).isActive = false then .error .notActive
    else if (s0.campaigns cid).deadline ≤ now then .error .deadlinePassed
    else if s0.locked = true then .error .reentrant
    else if s0.paused = true then .error .pausedErr
    else if value = 0 then .error .zeroValue
    else if tenEther < value then .error .tooLarge
    else
      let c := s0.campaigns cid
      let s1 := { s0 with
        campaigns := upd s0.campaigns cid
          { c with
            publicDonatorCount := c.publicDonatorCount + 1,
            donationCount := addE 32 c.donationCount (asEuint 32 1) },
        campaignDonations := upd s0.campaignDonations cid
          (s0.campaignDonations cid ++ [⟨sender, cid, asEuint 64 0, now, isAnonymous⟩]),
        donorDonations := upd s0.donorDonations sender
          (s0.donorDonations sender ++ [cid]),
        hasDonatedTo := upd s0.hasDonatedTo sender
          (upd (s0.hasDonatedTo sender) cid true) }
      match extCall env s1 c.organizer value with
      | none => .error .transferFailed
      | some s2 => .ok s2

end Eth

namespace Tok

/-- Campaign record of the confidential-ERC20 variant. -/
structure Campaign where
  id : Nat
  organizer : Nat
  title : String
  description : String
  imageUrl : String
  targetAmount : Nat
  deadline : Nat
  totalDonations : EU
  donationCount : EU
  publicDonorCount : Nat
  isActive : Bool
  isCompleted : Bool
  finalAmountRevealed : Bool
  category : Category

/-- The empty storage slot for a campaign id. -/
def c0 : Campaign :=
  ⟨0, 0, "", "", "", 0, 0, ⟨0, []⟩, ⟨0, []⟩, 0, false, false, false, .other⟩

/-- History entry (struct DonationMeta; no amount is persisted). -/
structure DonationMeta where
  donor : Nat
  campaignId : Nat
  timestamp : Nat
  isAnonymous : Bool
  deriving Repr, DecidableEq

/-- The default DonationMeta (used only as the out-of-range fallback of
indexed reads, never reachable in bounds). -/
def dm0 : DonationMeta := ⟨0, 0, 0, false⟩

/-- Events of the token variant that the claims observe. The reveal path
emits its placeholder handles (keccak256 of the two literal strings in the
source, modelled by the strings themselves). -/
inductive Ev
  | campaignCreated (cid organizer : Nat)
  | campaignCompleted (cid timestamp : Nat)
  | donationMade (cid donor timestamp : Nat) (isAnonymous : Bool)
  | totalsHandle (cid : Nat) (totalHandle countHandle : String)
  deriving Repr, DecidableEq

/-- Full contract storage plus account balances. The field
pubDecryptRequests records every ciphertext submitted for public
decryption; no code path of this variant issues such a request (the reveal
function is a stub), so nothing ever appends to it. -/
structure State where
  campaigns : Nat → Campaign
  campaignDonations : Nat → List DonationMeta
  donorCampaigns : Nat → List Nat
  hasDonatedTo : Nat → Nat → Bool
  organizerCampaigns : Nat → List Nat
  allCampaigns : List Nat
  activeCampaigns : List Nat
  activeIdx : Nat → Nat
  campaignMilestones : Nat → List Nat
  paused : Bool
  locked : Bool
  owner : Nat
  self : Nat
  balances : Nat → Nat
  events : List Ev
  pubDecryptRequests : List Nat

/-- Revert reasons of the token variant. -/
inductive Err
  | duplicateId | emptyTitle | invalidTarget | invalidDuration
  | notFound | notActive | deadlinePassed | notOrganizer
  | pausedErr | reentrant | zeroValue | invalidProof
  | tokenTransferFailed | ethTransferFailed
  | alreadyCompleted | stillActive | alreadyRevealed | insufficientFunds
  deriving Repr, DecidableEq

/-- EVM credit of msg.value to the contract before the body runs. -/
def payIn (s : State) (sender v : Nat) : Option State :=
  if v ≤ s.balances sender then
    some { s with balances := moveBal s.balances sender s.self v }
  else none

/-- An external value-bearing call from the contract. -/
def extCall (env : Nat → Bool) (s : State) (dst v : Nat) : Option State :=
  if env dst = true ∧ v ≤ s.balances s.self then
    some { s with balances := moveBal s.balances s.self dst v }
  else none

/-- createCampaign of the token variant (whenNotPaused; allowThis-only
self-grants; the swap-remove index of the new id is recorded before the
push, so it equals the id's position in the active list). -/
def createCampaign (s : State) (sender now cid : Nat)
    (title description imageUrl : String) (targetAmount duration : Nat)
    (category : Category) : Except Err State :=
  if s.paused = true then .error .pausedErr
  else if (s.campaigns cid).organizer ≠ 0 then .error .duplicateId
  else if title = "" then .error .emptyTitle
  else if targetAmount = 0 then .error .invalidTarget
  else if duration = 0 then .error .invalidDuration
  else
    let deadline := now + duration
    let zeroTotal := allowE s.self (asEuint 128 0)
    let zeroCount := allowE s.self (asEuint 32 0)
    .ok { s with
      campaigns := upd s.campaigns cid
        ⟨cid, sender, title, description, imageUrl, targetAmount, deadline,
         zeroTotal, zeroCount, 0, true, false, false, category⟩,
      campaignMilestones := upd s.campaignMilestones cid
        [targetAmount * 25 / 100, targetAmount * 50 / 100,
         targetAmount * 75 / 100, targetAmount],
      activeIdx := upd s.activeIdx cid s.activeCampaigns.length,
      activeCampaigns := s.activeCampaigns ++ [cid],
      allCampaigns := s.allCampaigns ++ [cid],
      organizerCampaigns := upd s.organizerCampaigns sender
        (s.organizerCampaigns sender ++ [cid]),
      events := Ev.campaignCreated cid sender :: s.events }

/-- The swap-with-last removal of completeCampaign, acting on the active
list and its index map: if the removed id is not at the last slot, the last
id is moved into its slot and that id's index is fixed up; then the last
slot is popped and the removed id's index entry is deleted (reset to the
mapping default 0). -/
def removeActive (l : List Nat) (ai : Nat → Nat) (cid : Nat) :
    List Nat × (Nat → Nat) :=
  let idx := ai cid
  let last := l.length - 1
  if idx ≠ last then
    let lastId := l.getD last 0
    (((l.set idx lastId).dropLast), upd (upd ai lastId idx) cid 0)
  else
    (l.dropLast, upd ai cid 0)

/-- completeCampaign of the token variant. -/
def completeCampaign (s : State) (sender cid : Nat) (now : Nat) : Except Err State :=
  if (s.campaigns cid).organizer = 0 then .error .notFound
  else if (s.campaigns cid).organizer ≠ sender then .error .notOrganizer
  else if (s.campaigns cid).isActive = false then .error .alreadyCompleted
  else
    let c := s.campaigns cid
    let r := removeActive s.activeCampaigns s.activeIdx cid
    .ok { s with
      campaigns := upd s.campaigns cid { c with isActive := false, isCompleted := true },
      activeCampaigns := r.1,
      activeIdx := r.2,
      events := Ev.campaignCompleted cid now :: s.events }

/-- donateEncrypted of the token variant: import the ciphertext, move
confidential tokens from donor to organizer (external collaborator,
outcome given by tokenMoved), homomorphically update both accumulators
(re-asserting the contract self-grant), bump the public counter, append a
history record, and update the donor index only when not anonymous. -/
def donateEncrypted (s : State) (sender now cid encVal : Nat)
    (proofOk : Bool) (isAnonymous : Bool) (tokenMoved : Bool) : Except Err State :=
  if (s.campaigns cid).organizer = 0 then .error .notFound
  else if (s.campaigns cid).isActive = false then .error .notActive
  else if (s.campaigns cid).deadline ≤ now then .error .deadlinePassed
  else if s.locked = true then .error .reentrant
  else if s.paused = true then .error .pausedErr
  else if proofOk = false then .error .invalidProof
  else if tokenMoved = false then .error .tokenTransferFailed
  else
    let c := s.campaigns cid
    let amount : EU := ⟨encVal % 2 ^ 128, []⟩
    let s1 := { s with
      campaigns := upd s.campaigns cid
        { c with
          totalDonations := allowE s.self (addE 128 c.totalDonations amount),
          donationCount := allowE s.self (addE 32 c.donationCount (asEuint 32 1)),
          publicDonorCount := c.publicDonorCount + 1 },
      campaignDonations := upd s.campaignDonations cid
        (s.campaignDonations cid ++
          [⟨if isAnonymous then 0 else sender, cid, now, isAnonymous⟩]),
      events := Ev.donationMade cid (if isAnonymous then 0 else sender) now isAnonymous
        :: s.events }
    if isAnonymous then .ok s1
    else
      .ok { s1 with
        donorCampaigns := upd s1.donorCampaigns sender
          (s1.donorCampaigns sender ++ [cid]),
        hasDonatedTo := upd s1.hasDonatedTo sender
          (upd (s1.hasDonatedTo sender) cid true) }

/-- donatePublic of the token variant: plain ETH donation; forwards the
value to the organizer first, then bumps the public counter and appends a
history record. It touches neither encrypted accumulator nor the donor
index maps. -/
def donatePublic (env : Nat → Bool) (s : State) (sender now value cid : Nat)
    (isAnonymous : Bool) : Except Err State :=
  match payIn s sender value with
  | none => .error .insufficientFunds
  | some s0 =>
    if (s0.campaigns cid).organizer = 0 then .error .notFound
    else if (s0.campaigns cid).isActive = false then .error .notActive
    else if (s0.campaigns cid).deadline ≤ now then .error .deadlinePassed
    else if s0.locked = true then .error .reentrant
    else if s0.paused = true then .error .pausedErr
    else if value = 0 then .error .zeroValue
    else
      let c := s0.campaigns cid
      match extCall env s0 c.organizer value with
      | none => .error .ethTransferFailed
      | some s1 =>
        .ok { s1 with
          campaigns := upd s1.campaigns cid
            { c with publicDonorCount := c.publicDonorCount + 1 },
          campaignDonations := upd s1.campaignDonations cid
            (s1.campaignDonations cid ++
              [⟨if isAnonymous then 0 else sender, cid, now, isAnonymous⟩]),
          events := Ev.donationMade cid (if isAnonymous then 0 else sender) now
            isAnonymous :: s1.events }

/-- donateSimple of the token variant: an external self-call that forwards
msg.value into donatePublic. Inside donatePublic, msg.sender is therefore
the contract's own address, not the account that invoked donateSimple. -/
def donateSimple (env : Nat → Bool) (s : State) (sender now value cid : Nat)
    (isAnonymous : Bool) : Except Err State :=
  match payIn s sender value with
  | none => .error .insufficientFunds
  | some s0 => donatePublic env s0 s0.self now value cid isAnonymous

/-- revealTotalsPublic of the token variant: organizer-only, only after the
campaign is no longer active and at most once. The decryption itself is an
unimplemented stub in the source: the function merely flips the flag and
emits an event whose two handles are keccak256 of fixed placeholder
strings; it never submits either accumulator for public decryption. -/
def revealTotalsPublic (s : State) (sender cid : Nat) : Except Err State :=
  if (s.campaigns cid).organizer = 0 then .error .notFound
  else if (s.campaigns cid).organizer ≠ sender then .error .notOrganizer
  else if (s.campaigns cid).isActive = true then .error .stillActive
  else if (s.campaigns cid).finalAmountRevealed = true then .error .alreadyRevealed
  else
    let c := s.campaigns cid
    .ok { s with
      campaigns := upd s.campaigns cid { c with finalAmountRevealed := true },
      events := Ev.totalsHandle cid "total_placeholder" "count_placeholder" :: s.events }

/-- getRecentDonations of the token variant: view returning three parallel
arrays over the last min-of-limit-and-length history entries, read at
ascending storage indices, with the donor replaced by address 0 on
anonymous entries. -/
def getRecentDonations (s : State) (cid limit : Nat) :
    Option (List Nat × List Nat × List Bool) :=
  if (s.campaigns cid).organizer = 0 then none
  else
    let d := s.campaignDonations cid
    let n := d.length
    let m := if limit < n then limit else n
    some ((List.range m).map fun i =>
            let e := d.getD (n - m + i) dm0
            if e.isAnonymous then 0 else e.donor,
          (List.range m).map fun i => (d.getD (n - m + i) dm0).timestamp,
          (List.range m).map fun i => (d.getD (n - m + i) dm0).isAnonymous)

/-- Allocation invariant of the swap-remove index: the recorded index of
every entry of the active list points back at its own position. -/
def wfIdx (l : List Nat) (ai : Nat → Nat) : Prop :=
  ∀ i, i < l.length → ai (l.getD i 0) = i

/-- The invariant, read on a full state. -/
def activeWF (s : State) : Prop :=
  wfIdx s.activeCampaigns s.activeIdx

instance wfIdxDecidable (l : List Nat) (ai : Nat → Nat) : Decidable (wfIdx l ai) := by
  unfold wfIdx
  exact Nat.decidableBallLT l.length fun i h => ai (l.getD i 0) = i

instance activeWFDecidable (s : State) : Decidable (activeWF s) := by
  unfold activeWF
  infer_instance

end Tok

section ClaimOne

/-- Claim C1: for a pending donation whose oracle callback delivers a
decrypted amount equal to the stored transferred amount, a completing run
of verifyDonationCallback homomorphically adds exactly the pending
encrypted amount to the campaign's encrypted total (modulo 2 ^ 64), adds 1
to the encrypted donation count (modulo 2 ^ 32), adds 1 to the public
donor count, appends exactly one history entry, and credits the
organizer's plaintext balance with the transferred amount. -/
theorem C1_verified_callback_finalizes
    (env : Nat → Bool) (s s' : Eth.State) (now rid dec : Nat)
    (hrun : Eth.verifyDonationCallback env s now rid dec true = .ok s')
    (hdec : dec = (s.pendingDonations rid).ethAmount)
    (horg : (s.campaigns (s.pendingDonations rid).campaignId).organizer ≠ s.self) :
    ((s'.campaigns (s.pendingDonations rid).campaignId).totalDonations.val
        = ((s.campaigns (s.pendingDonations rid).campaignId).totalDonations.val
            + (s.pendingDonations rid).encryptedAmount.val) % 2 ^ 64)
    ∧ ((s'.campaigns (s.pendingDonations rid).campaignId).donationCount.val
        = ((s.campaigns (s.pendingDonations rid).campaignId).donationCount.val + 1) % 2 ^ 32)
    ∧ ((s'.campaigns (s.pendingDonations rid).campaignId).publicDonatorCount
        = (s.campaigns (s.pendingDonations rid).campaignId).publicDonatorCount + 1)
    ∧ ((s'.campaignDonations (s.pendingDonations rid).campaignId).length
        = (s.campaignDonations (s.pendingDonations rid).campaignId).length + 1)
    ∧ (s'.balances (s.campaigns (s.pendingDonations rid).campaignId).organizer
        = s.balances (s.campaigns (s.pendingDonations rid).campaignId).organizer
            + (s.pendingDonations rid).ethAmount) := by
  unfold Eth.verifyDonationCallback at hrun
  split at hrun
  · exact absurd hrun (by simp)
  · split at hrun
    · exact absurd hrun (by simp)
    · dsimp only at hrun
      split at hrun
      · next hcond =>
        split at hrun
        · exact absurd hrun (by simp)
        · next s2 hcall =>
          unfold Eth.extCall at hcall
          split at hcall
          · next hacc =>
            injection hcall with hs2
            injection hrun with hs'
            subst hs2
            subst hs'
            refine ⟨?_, ?_, ?_, ?_, ?_⟩ <;>
              simp [Eth.processDonationPre, addE, asEuint, moveBal, horg, Ne.symm horg,
                Nat.one_mod_eq_one.mpr]
          · exact absurd hcall (by simp)
      · next hcond => exact absurd hdec hcond

/-- Environment in which every address accepts a plain value transfer. -/
def ethEnvAll : Nat → Bool := fun _ => true

/-- A concrete campaign: id 1, organizer 7, deadline 1000, encrypted total
3 and encrypted count 2 (both organizer- and contract-readable), two
public donors so far. -/
def ethCamp1 : Eth.Campaign :=
  ⟨1, 7, "t", "d", "u", 100, 1000, ⟨3, [100, 7]⟩, ⟨2, [100, 7]⟩, 2,
   true, false, false, 0, Category.medical⟩

/-- A concrete pending donation: request 0, donor 5, campaign 1, 2 wei
escrowed, encrypted amount 2. -/
def ethPend0 : Eth.PendingDonation := ⟨5, 1, 2, ⟨2, []⟩, true, false⟩

/-- A concrete contract state holding that campaign, that pending request,
and the 2 wei escrow (the contract is address 100). -/
def ethState1 : Eth.State :=
  { campaigns := upd (fun _ => Eth.c0) 1 ethCamp1,
    campaignDonations := fun _ => [],
    donorDonations := fun _ => [],
    hasDonatedTo := fun _ _ => false,
    organizerCampaigns := fun _ => [],
    allCampaigns := [1],
    activeCampaigns := [1],
    campaignMilestones := fun _ => [],
    pendingDonations := upd (fun _ => Eth.pd0) 0 ethPend0,
    nextRequestId := 1,
    decryptionRequests := [0],
    paused := false,
    locked := false,
    owner := 9,
    self := 100,
    balances := fun a => if a = 100 then 2 else 0 }

theorem C1_witness :
    (((okOr ethState1 (Eth.verifyDonationCallback ethEnvAll ethState1 500 0 2 true)).campaigns
        ((ethState1.pendingDonations 0).campaignId)).totalDonations.val
      = (((ethState1.campaigns ((ethState1.pendingDonations 0).campaignId)).totalDonations.val
          + (ethState1.pendingDonations 0).encryptedAmount.val) % 2 ^ 64))
    ∧ (((okOr ethState1 (Eth.verifyDonationCallback ethEnvAll ethState1 500 0 2 true)).campaigns
        ((ethState1.pendingDonations 0).campaignId)).donationCount.val
      = (((ethState1.campaigns ((ethState1.pendingDonations 0).campaignId)).donationCount.val + 1) % 2 ^ 32))
    ∧ (((okOr ethState1 (Eth.verifyDonationCallback ethEnvAll ethState1 500 0 2 true)).campaigns
        ((ethState1.pendingDonations 0).campaignId)).publicDonatorCount
      = ((ethState1.campaigns ((ethState1.pendingDonations 0).campaignId)).publicDonatorCount + 1))
    ∧ (((okOr ethState1 (Eth.verifyDonationCallback ethEnvAll ethState1 500 0 2 true)).campaignDonations
        ((ethState1.pendingDonations 0).campaignId)).length
      = ((ethState1.campaignDonations ((ethState1.pendingDonations 0).campaignId)).length + 1))
    ∧ ((okOr ethState1 (Eth.verifyDonationCallback ethEnvAll ethState1 500 0 2 true)).balances
        ((ethState1.campaigns ((ethState1.pendingDonations 0).campaignId)).organizer)
      = (ethState1.balances ((ethState1.campaigns ((ethState1.pendingDonations 0).campaignId)).organizer)
          + (ethState1.pendingDonations 0).ethAmount)) :=
  C1_verified_callback_finalizes ethEnvAll ethState1
    (okOr ethState1 (Eth.verifyDonationCallback ethEnvAll ethState1 500 0 2 true))
    500 0 2 rfl rfl (by decide)

end ClaimOne

section ClaimTwo

/-- Claim C2: for a pending donation whose oracle callback delivers a
decrypted amount different from the stored transferred amount, a
completing run of verifyDonationCallback leaves the campaign's encrypted
total, encrypted donation count, public donor count and history untouched,
and refunds the donor's plaintext balance by exactly the transferred
amount; the pending record is consumed. -/
theorem C2_mismatched_callback_refunds
    (env : Nat → Bool) (s s' : Eth.State) (now rid dec : Nat)
    (hrun : Eth.verifyDonationCallback env s now rid dec true = .ok s')
    (hdec : dec ≠ (s.pendingDonations rid).ethAmount)
    (hdonor : (s.pendingDonations rid).donor ≠ s.self) :
    ((s'.campaigns (s.pendingDonations rid).campaignId).totalDonations
        = (s.campaigns (s.pendingDonations rid).campaignId).totalDonations)
    ∧ ((s'.campaigns (s.pendingDonations rid).campaignId).donationCount
        = (s.campaigns (s.pendingDonations rid).campaignId).donationCount)
    ∧ ((s'.campaigns (s.pendingDonations rid).campaignId).publicDonatorCount
        = (s.campaigns (s.pendingDonations rid).campaignId).publicDonatorCount)
    ∧ (s'.campaignDonations (s.pendingDonations rid).campaignId
        = s.campaignDonations (s.pendingDonations rid).campaignId)
    ∧ (s'.balances (s.pendingDonations rid).donor
        = s.balances (s.pendingDonations rid).donor + (s.pendingDonations rid).ethAmount)
    ∧ ((s'.pendingDonations rid).isActive = false) := by
  unfold Eth.verifyDonationCallback at hrun
  split at hrun
  · exact absurd hrun (by simp)
  · split at hrun
    · exact absurd hrun (by simp)
    · dsimp only at hrun
      split at hrun
      · next hcond => exact absurd hcond hdec
      · split at hrun
        · exact absurd hrun (by simp)
        · next s2 hcall =>
          unfold Eth.extCall at hcall
          split at hcall
          · next hacc =>
            injection hcall with hs2
            injection hrun with hs'
            subst hs2
            subst hs'
            refine ⟨rfl, rfl, rfl, rfl, ?_, ?_⟩ <;>
              simp [moveBal, hdonor, Ne.symm hdonor, Eth.pd0]
          · exact absurd hcall (by simp)

theorem C2_witness :
    (((okOr ethState1 (Eth.verifyDonationCallback ethEnvAll ethState1 500 0 9 true)).campaigns
        ((ethState1.pendingDonations 0).campaignId)).totalDonations
      = ((ethState1.campaigns ((ethState1.pendingDonations 0).campaignId)).totalDonations))
    ∧ (((okOr ethState1 (Eth.verifyDonationCallback ethEnvAll ethState1 500 0 9 true)).campaigns
        ((ethState1.pendingDonations 0).campaignId)).donationCount
      = ((ethState1.campaigns ((ethState1.pendingDonations 0).campaignId)).donationCount))
    ∧ (((okOr ethState1 (Eth.verifyDonationCallback ethEnvAll ethState1 500 0 9 true)).campaigns
        ((ethState1.pendingDonations 0).campaignId)).publicDonatorCount
      = ((ethState1.campaigns ((ethState1.pendingDonations 0).campaignId)).publicDonatorCount))
    ∧ ((okOr ethState1 (Eth.verifyDonationCallback ethEnvAll ethState1 500 0 9 true)).campaignDonations
        ((ethState1.pendingDonations 0).campaignId)
      = ethState1.campaignDonations ((ethState1.pendingDonations 0).campaignId))
    ∧ ((okOr ethState1 (Eth.verifyDonationCallback ethEnvAll ethState1 500 0 9 true)).balances
        ((ethState1.pendingDonations 0).donor)
      = ethState1.balances ((ethState1.pendingDonations 0).donor)
          + (ethState1.pendingDonations 0).ethAmount)
    ∧ (((okOr ethState1 (Eth.verifyDonationCallback ethEnvAll ethState1 500 0 9 true)).pendingDonations 0).isActive
      = false) :=
  C2_mismatched_callback_refunds ethEnvAll ethState1
    (okOr ethState1 (Eth.verifyDonationCallback ethEnvAll ethState1 500 0 9 true))
    500 0 9 rfl (by decide) (by decide)

end ClaimTwo

section ClaimThree

/-- Whether an Except result is a success. -/
def isOkE {ε σ : Type} : Except ε σ → Bool
  | .ok _ => true
  | .error _ => false

/-- A second concrete pending donation (request 1, donor 6, 2 wei). -/
def ethPend1 : Eth.PendingDonation := ⟨6, 1, 2, ⟨2, []⟩, true, false⟩

/-- A concrete state with two pending donations of 2 wei each, so the
contract escrows 4 wei in total. -/
def ethState3 : Eth.State :=
  { ethState1 with
    pendingDonations := upd (upd (fun _ => Eth.pd0) 0 ethPend0) 1 ethPend1,
    nextRequestId := 2,
    decryptionRequests := [0, 1],
    balances := fun a => if a = 100 then 4 else 0 }

/-- The state the organizer's code observes while verifyDonationCallback
for request 0 performs its external push payment: by the structure of
verifyDonationCallback this is exactly the extCall intermediate state on
the finalize branch — bookkeeping committed, value moved, pending record
NOT yet deleted. -/
def ethMid3 : Eth.State :=
  match Eth.extCall ethEnvAll
      (Eth.processDonationPre ethState3 500 (ethState3.pendingDonations 0))
      ((Eth.processDonationPre ethState3 500 (ethState3.pendingDonations 0)).campaigns
        ((ethState3.pendingDonations 0).campaignId)).organizer
      ((ethState3.pendingDonations 0).ethAmount) with
  | some s => s
  | none => ethState3

/-- Claim C3 is violated by the code: the pending record's active flag is
NOT consumed atomically with the state read — the record is deleted only
after the external value transfer. At the concrete mid-transfer state of
request 0 the flag is still set, so a nested reentrant call to
verifyDonationCallback with the same request id does not fail with the
invalid-or-processed revert: it succeeds and takes the finalize transition
a second time, leaving the encrypted total at 7 = 3 + 2 + 2 instead of 5,
the public donor count at 4 instead of 3, and paying the organizer 4 wei
for one 2 wei donation (draining the other request's escrow). -/
theorem C3_reentrant_callback_double_finalize :
    ((ethMid3.pendingDonations 0).isActive = true)
    ∧ (isOkE (Eth.verifyDonationCallback ethEnvAll ethMid3 500 0 2 true) = true)
    ∧ (((okOr ethState3 (Eth.verifyDonationCallback ethEnvAll ethMid3 500 0 2 true)).campaigns 1).totalDonations.val = 7)
    ∧ (((okOr ethState3 (Eth.verifyDonationCallback ethEnvAll ethMid3 500 0 2 true)).campaigns 1).publicDonatorCount = 4)
    ∧ ((okOr ethState3 (Eth.verifyDonationCallback ethEnvAll ethMid3 500 0 2 true)).balances 7 = 4)
    ∧ ((okOr ethState3 (Eth.verifyDonationCallback ethEnvAll ethMid3 500 0 2 true)).balances 100 = 0) := by
  refine ⟨rfl, rfl, ?_, rfl, rfl, rfl⟩
  decide

end ClaimThree

section ClaimFour

/-- A concrete state of the token variant: campaign 1, organizer 7,
deadline 1000, encrypted total 3 and count 2, two public donors, contract
address 200, donor 5 holding 10 wei. -/
def tokCamp1 : Tok.Campaign :=
  ⟨1, 7, "t", "d", "u", 100, 1000, ⟨3, [200]⟩, ⟨2, [200]⟩, 2,
   true, false, false, Category.medical⟩

def tokState1 : Tok.State :=
  { campaigns := upd (fun _ => Tok.c0) 1 tokCamp1,
    campaignDonations := fun _ => [],
    donorCampaigns := fun _ => [],
    hasDonatedTo := fun _ _ => false,
    organizerCampaigns := fun _ => [],
    allCampaigns := [1],
    activeCampaigns := [1],
    activeIdx := upd (fun _ => 0) 1 0,
    campaignMilestones := fun _ => [],
    paused := false,
    locked := false,
    owner := 9,
    self := 200,
    balances := fun a => if a = 5 then 10 else 0,
    events := [],
    pubDecryptRequests := [] }

/-- The concrete ETH-variant state of ethState1 with donor 5 funded. -/
def ethState4 : Eth.State :=
  { ethState1 with
    balances := fun a => if a = 5 then 10 else if a = 100 then 2 else 0 }

/-- Counterexample to claim C4 as stated: in the ETH variant, donateSimple
does NOT leave the encrypted donation count unchanged — it homomorphically
increments it (and it also records the donor index), so it does not
increment only the public donor counter. Concretely, from a state whose
campaign 1 has encrypted count 2 and where donor 5 has never donated,
donateSimple succeeds and leaves the encrypted count at 3 and the donor
index set. -/
theorem C4_counterexample_donateSimple_touches_encrypted_count :
    (isOkE (Eth.donateSimple ethEnvAll ethState4 5 500 3 1 false) = true)
    ∧ ((ethState4.campaigns 1).donationCount.val = 2)
    ∧ (((okOr ethState4 (Eth.donateSimple ethEnvAll ethState4 5 500 3 1 false)).campaigns 1).donationCount.val = 3)
    ∧ (ethState4.hasDonatedTo 5 1 = false)
    ∧ ((okOr ethState4 (Eth.donateSimple ethEnvAll ethState4 5 500 3 1 false)).hasDonatedTo 5 1 = true) := by
  refine ⟨rfl, rfl, ?_, rfl, ?_⟩ <;> decide

/-- Claim C4, amended: on an active campaign, the plain fallback entry
point forwards the sent value to the organizer and appends one history
record in both variants. In the token variant, donatePublic increments
only the public donor counter and leaves both encrypted accumulators
unchanged, as claimed. In the ETH variant, donateSimple additionally
homomorphically increments the encrypted donation count (modulo 2 ^ 32)
and records the donor index; only the encrypted total is left unchanged. -/
theorem C4_amended_public_fallback_effects :
    (∀ (env : Nat → Bool) (s s' : Tok.State) (sender now value cid : Nat) (anon : Bool),
      Tok.donatePublic env s sender now value cid anon = .ok s' →
      (s.campaigns cid).organizer ≠ s.self →
      (s.campaigns cid).organizer ≠ sender →
      ((s'.balances (s.campaigns cid).organizer
          = s.balances (s.campaigns cid).organizer + value)
        ∧ ((s'.campaigns cid).publicDonorCount = (s.campaigns cid).publicDonorCount + 1)
        ∧ ((s'.campaignDonations cid).length = (s.campaignDonations cid).length + 1)
        ∧ ((s'.campaigns cid).totalDonations = (s.campaigns cid).totalDonations)
        ∧ ((s'.campaigns cid).donationCount = (s.campaigns cid).donationCount)
        ∧ (s'.hasDonatedTo = s.hasDonatedTo)))
    ∧ (∀ (env : Nat → Bool) (s s' : Eth.State) (sender now value cid : Nat) (anon : Bool),
      Eth.donateSimple env s sender now value cid anon = .ok s' →
      (s.campaigns cid).organizer ≠ s.self →
      (s.campaigns cid).organizer ≠ sender →
      ((s'.balances (s.campaigns cid).organizer
          = s.balances (s.campaigns cid).organizer + value)
        ∧ ((s'.campaigns cid).publicDonatorCount = (s.campaigns cid).publicDonatorCount + 1)
        ∧ ((s'.campaignDonations cid).length = (s.campaignDonations cid).length + 1)
        ∧ ((s'.campaigns cid).totalDonations = (s.campaigns cid).totalDonations)
        ∧ ((s'.campaigns cid).donationCount.val
            = ((s.campaigns cid).donationCount.val + 1) % 2 ^ 32)
        ∧ (s'.hasDonatedTo sender cid = true))) := by
  constructor
  · intro env s s' sender now value cid anon hrun horg hsend
    unfold Tok.donatePublic at hrun
    split at hrun
    · exact absurd hrun (by simp)
    · next s0 hpay =>
      unfold Tok.payIn at hpay
      split at hpay
      · next hv =>
        injection hpay with hs0
        subst hs0
        split at hrun
        · exact absurd hrun (by simp)
        · split at hrun
          · exact absurd hrun (by simp)
          · split at hrun
            · exact absurd hrun (by simp)
            · split at hrun
              · exact absurd hrun (by simp)
              · split at hrun
                · exact absurd hrun (by simp)
                · split at hrun
                  · exact absurd hrun (by simp)
                  · dsimp only at hrun
                    split at hrun
                    · exact absurd hrun (by simp)
                    · next s1 hcall =>
                      unfold Tok.extCall at hcall
                      split at hcall
                      · next hacc =>
                        injection hcall with hs1
                        injection hrun with hs'
                        subst hs1
                        subst hs'
                        refine ⟨?_, ?_, ?_, ?_, ?_, ?_⟩ <;>
                          simp [moveBal, horg, Ne.symm horg, hsend, Ne.symm hsend]
                      · exact absurd hcall (by simp)
      · exact absurd hpay (by simp)
  · intro env s s' sender now value cid anon hrun horg hsend
    unfold Eth.donateSimple at hrun
    split at hrun
    · exact absurd hrun (by simp)
    · next s0 hpay =>
      unfold Eth.payIn at hpay
      split at hpay
      · next hv =>
        injection hpay with hs0
        subst hs0
        split at hrun
        · exact absurd hrun (by simp)
        · split at hrun
          · exact absurd hrun (by simp)
          · split at hrun
            · exact absurd hrun (by simp)
            · split at hrun
              · exact absurd hrun (by simp)
              · split at hrun
                · exact absurd hrun (by simp)
                · split at hrun
                  · exact absurd hrun (by simp)
                  · split at hrun
                    · exact absurd hrun (by simp)
                    · dsimp only at hrun
                      split at hrun
                      · exact absurd hrun (by simp)
                      · next s2 hcall =>
                        unfold Eth.extCall at hcall
                        split at hcall
                        · next hacc =>
                          injection hcall with hs2
                          injection hrun with hs'
                          subst hs2
                          subst hs'
                          refine ⟨?_, ?_, ?_, ?_, ?_, ?_⟩ <;>
                            simp [moveBal, addE, asEuint, horg, Ne.symm horg, hsend,
                              Ne.symm hsend, Nat.one_mod_eq_one.mpr]
                        · exact absurd hcall (by simp)
      · exact absurd hpay (by simp)

theorem C4_witness :
    ((okOr tokState1 (Tok.donatePublic ethEnvAll tokState1 5 500 3 1 false)).balances
        ((tokState1.campaigns 1).organizer)
      = tokState1.balances ((tokState1.campaigns 1).organizer) + 3)
    ∧ (((okOr tokState1 (Tok.donatePublic ethEnvAll tokState1 5 500 3 1 false)).campaigns 1).publicDonorCount
      = (tokState1.campaigns 1).publicDonorCount + 1)
    ∧ (((okOr tokState1 (Tok.donatePublic ethEnvAll tokState1 5 500 3 1 false)).campaignDonations 1).length
      = (tokState1.campaignDonations 1).length + 1)
    ∧ (((okOr tokState1 (Tok.donatePublic ethEnvAll tokState1 5 500 3 1 false)).campaigns 1).totalDonations
      = (tokState1.campaigns 1).totalDonations)
    ∧ (((okOr tokState1 (Tok.donatePublic ethEnvAll tokState1 5 500 3 1 false)).campaigns 1).donationCount
      = (tokState1.campaigns 1).donationCount)
    ∧ ((okOr tokState1 (Tok.donatePublic ethEnvAll tokState1 5 500 3 1 false)).hasDonatedTo
      = tokState1.hasDonatedTo) :=
  C4_amended_public_fallback_effects.1 ethEnvAll tokState1
    (okOr tokState1 (Tok.donatePublic ethEnvAll tokState1 5 500 3 1 false))
    5 500 3 1 false rfl (by decide) (by decide)

end ClaimFour

section ClaimNine

/-- Claim C9: in the confidential-ERC20 variant, donateSimple forwards
through an external self-call into donatePublic, so inside donatePublic
the message sender is the contract itself. Consequently every
non-anonymous donateSimple appends a history entry whose donor field is
the contract's own address — never the invoking account. -/
theorem C9_donateSimple_records_contract_as_donor
    (env : Nat → Bool) (s s' : Tok.State) (sender now value cid : Nat)
    (hrun : Tok.donateSimple env s sender now value cid false = .ok s')
    (hne : sender ≠ s.self) :
    ((s'.campaignDonations cid).getLast? = some ⟨s.self, cid, now, false⟩)
    ∧ (s.self ≠ sender) := by
  refine ⟨?_, Ne.symm hne⟩
  unfold Tok.donateSimple at hrun
  split at hrun
  · exact absurd hrun (by simp)
  · next s0 hpay =>
    unfold Tok.payIn at hpay
    split at hpay
    · next hv =>
      injection hpay with hs0
      subst hs0
      unfold Tok.donatePublic at hrun
      split at hrun
      · exact absurd hrun (by simp)
      · next s1 hpay2 =>
        unfold Tok.payIn at hpay2
        split at hpay2
        · next hv2 =>
          injection hpay2 with hs1
          subst hs1
          split at hrun
          · exact absurd hrun (by simp)
          · split at hrun
            · exact absurd hrun (by simp)
            · split at hrun
              · exact absurd hrun (by simp)
              · split at hrun
                · exact absurd hrun (by simp)
                · split at hrun
                  · exact absurd hrun (by simp)
                  · split at hrun
                    · exact absurd hrun (by simp)
                    · dsimp only at hrun
                      split at hrun
                      · exact absurd hrun (by simp)
                      · next s2 hcall =>
                        unfold Tok.extCall at hcall
                        split at hcall
                        · next hacc =>
                          injection hcall with hs2
                          injection hrun with hs'
                          subst hs2
                          subst hs'
                          simp
                        · exact absurd hcall (by simp)
        · exact absurd hpay2 (by simp)
    · exact absurd hpay (by simp)

theorem C9_witness :
    (((okOr tokState1 (Tok.donateSimple ethEnvAll tokState1 5 500 3 1 false)).campaignDonations 1).getLast?
      = some ⟨tokState1.self, 1, 500, false⟩)
    ∧ (tokState1.self ≠ 5) :=
  C9_donateSimple_records_contract_as_donor ethEnvAll tokState1
    (okOr tokState1 (Tok.donateSimple ethEnvAll tokState1 5 500 3 1 false))
    5 500 3 1 rfl (by decide)

end ClaimNine

section ClaimTen

set_option maxHeartbeats 1000000 in
/-- Claim C10: in the confidential-ERC20 variant the per-donor index
(donorCampaigns and hasDonatedTo) is updated only by non-anonymous
donateEncrypted: an anonymous donateEncrypted leaves both maps entirely
unchanged, donatePublic leaves both maps entirely unchanged regardless of
the anonymity flag, and a non-anonymous donateEncrypted appends the
campaign to the donor's list and sets hasDonatedTo. -/
theorem C10_donor_index_only_from_nonanonymous_encrypted :
    (∀ (s s' : Tok.State) (sender now cid encVal : Nat) (pOk moved : Bool),
      Tok.donateEncrypted s sender now cid encVal pOk true moved = .ok s' →
      (s'.donorCampaigns = s.donorCampaigns ∧ s'.hasDonatedTo = s.hasDonatedTo))
    ∧ (∀ (env : Nat → Bool) (s s' : Tok.State) (sender now value cid : Nat) (anon : Bool),
      Tok.donatePublic env s sender now value cid anon = .ok s' →
      (s'.donorCampaigns = s.donorCampaigns ∧ s'.hasDonatedTo = s.hasDonatedTo))
    ∧ (∀ (s s' : Tok.State) (sender now cid encVal : Nat) (pOk moved : Bool),
      Tok.donateEncrypted s sender now cid encVal pOk false moved = .ok s' →
      (s'.hasDonatedTo sender cid = true
        ∧ s'.donorCampaigns sender = s.donorCampaigns sender ++ [cid])) := by
  refine ⟨?_, ?_, ?_⟩
  · intro s s' sender now cid encVal pOk moved hrun
    unfold Tok.donateEncrypted at hrun
    split at hrun
    · exact absurd hrun (by simp)
    · split at hrun
      · exact absurd hrun (by simp)
      · split at hrun
        · exact absurd hrun (by simp)
        · split at hrun
          · exact absurd hrun (by simp)
          · split at hrun
            · exact absurd hrun (by simp)
            · split at hrun
              · exact absurd hrun (by simp)
              · split at hrun
                · exact absurd hrun (by simp)
                · simp only [if_pos] at hrun
                  injection hrun with hs'
                  subst hs'
                  exact ⟨rfl, rfl⟩
  · intro env s s' sender now value cid anon hrun
    unfold Tok.donatePublic at hrun
    split at hrun
    · exact absurd hrun (by simp)
    · next s0 hpay =>
      unfold Tok.payIn at hpay
      split at hpay
      · next hv =>
        injection hpay with hs0
        subst hs0
        split at hrun
        · exact absurd hrun (by simp)
        · split at hrun
          · exact absurd hrun (by simp)
          · split at hrun
            · exact absurd hrun (by simp)
            · split at hrun
              · exact absurd hrun (by simp)
              · split at hrun
                · exact absurd hrun (by simp)
                · split at hrun
                  · exact absurd hrun (by simp)
                  · dsimp only at hrun
                    split at hrun
                    · exact absurd hrun (by simp)
                    · next s1 hcall =>
                      unfold Tok.extCall at hcall
                      split at hcall
                      · next hacc =>
                        injection hcall with hs1
                        injection hrun with hs'
                        subst hs1
                        subst hs'
                        exact ⟨rfl, rfl⟩
                      · exact absurd hcall (by simp)
      · exact absurd hpay (by simp)
  · intro s s' sender now cid encVal pOk moved hrun
    unfold Tok.donateEncrypted at hrun
    split at hrun
    · exact absurd hrun (by simp)
    · split at hrun
      · exact absurd hrun (by simp)
      · split at hrun
        · exact absurd hrun (by simp)
        · split at hrun
          · exact absurd hrun (by simp)
          · split at hrun
            · exact absurd hrun (by simp)
            · split at hrun
              · exact absurd hrun (by simp)
              · split at hrun
                · exact absurd hrun (by simp)
                · simp only [Bool.false_eq_true, if_false] at hrun
                  injection hrun with hs'
                  subst hs'
                  simp

theorem C10_witness :
    ((okOr tokState1 (Tok.donateEncrypted tokState1 5 500 1 42 true true true)).donorCampaigns
      = tokState1.donorCampaigns)
    ∧ ((okOr tokState1 (Tok.donateEncrypted tokState1 5 500 1 42 true true true)).hasDonatedTo
      = tokState1.hasDonatedTo)
    ∧ ((okOr tokState1 (Tok.donateEncrypted tokState1 5 500 1 42 true false true)).hasDonatedTo 5 1
      = true)
    ∧ ((okOr tokState1 (Tok.donateEncrypted tokState1 5 500 1 42 true false true)).donorCampaigns 5
      = tokState1.donorCampaigns 5 ++ [1]) :=
  ⟨(C10_donor_index_only_from_nonanonymous_encrypted.1 tokState1
      (okOr tokState1 (Tok.donateEncrypted tokState1 5 500 1 42 true true true))
      5 500 1 42 true true rfl).1,
   (C10_donor_index_only_from_nonanonymous_encrypted.1 tokState1
      (okOr tokState1 (Tok.donateEncrypted tokState1 5 500 1 42 true true true))
      5 500 1 42 true true rfl).2,
   (C10_donor_index_only_from_nonanonymous_encrypted.2.2 tokState1
      (okOr tokState1 (Tok.donateEncrypted tokState1 5 500 1 42 true false true))
      5 500 1 42 true true rfl).1,
   (C10_donor_index_only_from_nonanonymous_encrypted.2.2 tokState1
      (okOr tokState1 (Tok.donateEncrypted tokState1 5 500 1 42 true false true))
      5 500 1 42 true true rfl).2⟩

end ClaimTen

section ClaimSeven

set_option maxHeartbeats 1000000 in
/-- Claim C7: createCampaign rejects a duplicate id, an empty title, a
zero target and a zero duration (in that order of checks, the target and
duration being unsigned so that nonpositive means zero), and on success
sets the deadline to now plus the duration, initializes both encrypted
accumulators to encrypted zero carrying the contract self-grant (the ETH
variant additionally grants the organizer), starts the public donor count
at 0, and pushes the id exactly once onto both the all-list and the
active-list. Both contract variants are covered; the token variant's
whenNotPaused modifier appears as its leading hypothesis. -/
theorem C7_createCampaign_validation_and_init :
    (∀ (s : Eth.State) (sender now cid : Nat) (t d i : String) (ta du : Nat) (cat : Category),
      ((s.campaigns cid).organizer ≠ 0 →
        Eth.createCampaign s sender now cid t d i ta du cat = .error .duplicateId)
      ∧ ((s.campaigns cid).organizer = 0 → t = "" →
        Eth.createCampaign s sender now cid t d i ta du cat = .error .emptyTitle)
      ∧ ((s.campaigns cid).organizer = 0 → t ≠ "" → ta = 0 →
        Eth.createCampaign s sender now cid t d i ta du cat = .error .invalidTarget)
      ∧ ((s.campaigns cid).organizer = 0 → t ≠ "" → ta ≠ 0 → du = 0 →
        Eth.createCampaign s sender now cid t d i ta du cat = .error .invalidDuration)
      ∧ ((s.campaigns cid).organizer = 0 → t ≠ "" → ta ≠ 0 → du ≠ 0 →
        isOkE (Eth.createCampaign s sender now cid t d i ta du cat) = true)
      ∧ ((s.campaigns cid).organizer = 0 → t ≠ "" → ta ≠ 0 → du ≠ 0 →
        cid ∉ s.allCampaigns → cid ∉ s.activeCampaigns →
        ∀ s', Eth.createCampaign s sender now cid t d i ta du cat = .ok s' →
          ((s'.campaigns cid).deadline = now + du
            ∧ (s'.campaigns cid).totalDonations.val = 0
            ∧ (s'.campaigns cid).donationCount.val = 0
            ∧ s.self ∈ (s'.campaigns cid).totalDonations.acl
            ∧ s.self ∈ (s'.campaigns cid).donationCount.acl
            ∧ sender ∈ (s'.campaigns cid).totalDonations.acl
            ∧ sender ∈ (s'.campaigns cid).donationCount.acl
            ∧ (s'.campaigns cid).publicDonatorCount = 0
            ∧ s'.allCampaigns.count cid = 1
            ∧ s'.activeCampaigns.count cid = 1)))
    ∧ (∀ (s : Tok.State) (sender now cid : Nat) (t d i : String) (ta du : Nat) (cat : Category),
      (s.paused = false →
        ((s.campaigns cid).organizer ≠ 0 →
          Tok.createCampaign s sender now cid t d i ta du cat = .error .duplicateId)
        ∧ ((s.campaigns cid).organizer = 0 → t = "" →
          Tok.createCampaign s sender now cid t d i ta du cat = .error .emptyTitle)
        ∧ ((s.campaigns cid).organizer = 0 → t ≠ "" → ta = 0 →
          Tok.createCampaign s sender now cid t d i ta du cat = .error .invalidTarget)
        ∧ ((s.campaigns cid).organizer = 0 → t ≠ "" → ta ≠ 0 → du = 0 →
          Tok.createCampaign s sender now cid t d i ta du cat = .error .invalidDuration)
        ∧ ((s.campaigns cid).organizer = 0 → t ≠ "" → ta ≠ 0 → du ≠ 0 →
          isOkE (Tok.createCampaign s sender now cid t d i ta du cat) = true)
        ∧ ((s.campaigns cid).organizer = 0 → t ≠ "" → ta ≠ 0 → du ≠ 0 →
          cid ∉ s.allCampaigns → cid ∉ s.activeCampaigns →
          ∀ s', Tok.createCampaign s sender now cid t d i ta du cat = .ok s' →
            ((s'.campaigns cid).deadline = now + du
              ∧ (s'.campaigns cid).totalDonations.val = 0
              ∧ (s'.campaigns cid).donationCount.val = 0
              ∧ s.self ∈ (s'.campaigns cid).totalDonations.acl
              ∧ s.self ∈ (s'.campaigns cid).donationCount.acl
              ∧ (s'.campaigns cid).publicDonorCount = 0
              ∧ s'.allCampaigns.count cid = 1
              ∧ s'.activeCampaigns.count cid = 1)))) := by
  constructor
  · intro s sender now cid t d i ta du cat
    refine ⟨?_, ?_, ?_, ?_, ?_, ?_⟩
    · intro h1
      simp [Eth.createCampaign, h1]
    · intro h1 h2
      simp [Eth.createCampaign, h1, h2]
    · intro h1 h2 h3
      simp [Eth.createCampaign, h1, h2, h3]
    · intro h1 h2 h3 h4
      simp [Eth.createCampaign, h1, h2, h3, h4]
    · intro h1 h2 h3 h4
      simp [Eth.createCampaign, isOkE, h1, h2, h3, h4]
    · intro h1 h2 h3 h4 hall hact s' hrun
      simp only [Eth.createCampaign, h1, h2, h3, h4, if_neg, if_pos,
        ne_eq, not_true_eq_false, not_false_eq_true, ite_false, ite_true] at hrun
      injection hrun with hs'
      subst hs'
      refine ⟨?_, ?_, ?_, ?_, ?_, ?_, ?_, ?_, ?_, ?_⟩ <;>
        simp [allowE, asEuint, List.count_append,
          List.count_eq_zero.mpr hall, List.count_eq_zero.mpr hact]
  · intro s sender now cid t d i ta du cat hp
    refine ⟨?_, ?_, ?_, ?_, ?_, ?_⟩
    · intro h1
      simp [Tok.createCampaign, hp, h1]
    · intro h1 h2
      simp [Tok.createCampaign, hp, h1, h2]
    · intro h1 h2 h3
      simp [Tok.createCampaign, hp, h1, h2, h3]
    · intro h1 h2 h3 h4
      simp [Tok.createCampaign, hp, h1, h2, h3, h4]
    · intro h1 h2 h3 h4
      simp [Tok.createCampaign, isOkE, hp, h1, h2, h3, h4]
    · intro h1 h2 h3 h4 hall hact s' hrun
      rw [Tok.createCampaign, if_neg (by simp [hp]), if_neg (by simp [h1]),
        if_neg (by simp [h2]), if_neg (by simp [h3]), if_neg (by simp [h4])] at hrun
      injection hrun with hs'
      subst hs'
      refine ⟨?_, ?_, ?_, ?_, ?_, ?_, ?_, ?_⟩ <;>
        simp [allowE, asEuint, List.count_append,
          List.count_eq_zero.mpr hall, List.count_eq_zero.mpr hact]

/-- An otherwise-empty deployment of both variants, for the witness. -/
def ethState0 : Eth.State :=
  { campaigns := fun _ => Eth.c0,
    campaignDonations := fun _ => [],
    donorDonations := fun _ => [],
    hasDonatedTo := fun _ _ => false,
    organizerCampaigns := fun _ => [],
    allCampaigns := [],
    activeCampaigns := [],
    campaignMilestones := fun _ => [],
    pendingDonations := fun _ => Eth.pd0,
    nextRequestId := 0,
    decryptionRequests := [],
    paused := false,
    locked := false,
    owner := 9,
    self := 100,
    balances := fun _ => 0 }

theorem C7_witness :
    (((okOr ethState0 (Eth.createCampaign ethState0 7 10 1 "t" "d" "u" 100 90 Category.medical)).campaigns 1).deadline
      = 10 + 90)
    ∧ (((okOr ethState0 (Eth.createCampaign ethState0 7 10 1 "t" "d" "u" 100 90 Category.medical)).campaigns 1).totalDonations.val = 0)
    ∧ (((okOr ethState0 (Eth.createCampaign ethState0 7 10 1 "t" "d" "u" 100 90 Category.medical)).campaigns 1).donationCount.val = 0)
    ∧ (ethState0.self ∈ ((okOr ethState0 (Eth.createCampaign ethState0 7 10 1 "t" "d" "u" 100 90 Category.medical)).campaigns 1).totalDonations.acl)
    ∧ (ethState0.self ∈ ((okOr ethState0 (Eth.createCampaign ethState0 7 10 1 "t" "d" "u" 100 90 Category.medical)).campaigns 1).donationCount.acl)
    ∧ ((7 : Nat) ∈ ((okOr ethState0 (Eth.createCampaign ethState0 7 10 1 "t" "d" "u" 100 90 Category.medical)).campaigns 1).totalDonations.acl)
    ∧ ((7 : Nat) ∈ ((okOr ethState0 (Eth.createCampaign ethState0 7 10 1 "t" "d" "u" 100 90 Category.medical)).campaigns 1).donationCount.acl)
    ∧ (((okOr ethState0 (Eth.createCampaign ethState0 7 10 1 "t" "d" "u" 100 90 Category.medical)).campaigns 1).publicDonatorCount = 0)
    ∧ ((okOr ethState0 (Eth.createCampaign ethState0 7 10 1 "t" "d" "u" 100 90 Category.medical)).allCampaigns.count 1 = 1)
    ∧ ((okOr ethState0 (Eth.createCampaign ethState0 7 10 1 "t" "d" "u" 100 90 Category.medical)).activeCampaigns.count 1 = 1) :=
  (C7_createCampaign_validation_and_init.1 ethState0 7 10 1 "t" "d" "u" 100 90
      Category.medical).2.2.2.2.2
    rfl (by decide) (by decide) (by decide) (by decide) (by decide)
    (okOr ethState0 (Eth.createCampaign ethState0 7 10 1 "t" "d" "u" 100 90 Category.medical))
    rfl

end ClaimSeven

section ClaimEight

/-- Claim C8, amended: revealTotalsPublic succeeds only when the campaign
exists, the caller is the organizer, the campaign is not active, and the
final amount has not already been revealed, failing with the
still-active or already-revealed reverts otherwise; on success it only
sets finalAmountRevealed and emits a totals-handle event carrying two
fixed placeholder handles — it does not issue any public-decryption
request for the encrypted accumulators (the decryption step is an
unimplemented stub in the source). -/
theorem C8_amended_reveal_guards_and_stub (s : Tok.State) (sender cid : Nat) :
    ((s.campaigns cid).organizer = 0 →
      Tok.revealTotalsPublic s sender cid = .error .notFound)
    ∧ ((s.campaigns cid).organizer ≠ 0 → (s.campaigns cid).organizer ≠ sender →
      Tok.revealTotalsPublic s sender cid = .error .notOrganizer)
    ∧ ((s.campaigns cid).organizer = sender → (s.campaigns cid).organizer ≠ 0 →
      (s.campaigns cid).isActive = true →
      Tok.revealTotalsPublic s sender cid = .error .stillActive)
    ∧ ((s.campaigns cid).organizer = sender → (s.campaigns cid).organizer ≠ 0 →
      (s.campaigns cid).isActive = false → (s.campaigns cid).finalAmountRevealed = true →
      Tok.revealTotalsPublic s sender cid = .error .alreadyRevealed)
    ∧ ((s.campaigns cid).organizer = sender → (s.campaigns cid).organizer ≠ 0 →
      (s.campaigns cid).isActive = false → (s.campaigns cid).finalAmountRevealed = false →
      Tok.revealTotalsPublic s sender cid
        = .ok { s with
            campaigns := upd s.campaigns cid
              { s.campaigns cid with finalAmountRevealed := true },
            events := Tok.Ev.totalsHandle cid "total_placeholder" "count_placeholder"
              :: s.events }) := by
  refine ⟨?_, ?_, ?_, ?_, ?_⟩
  · intro h1
    simp [Tok.revealTotalsPublic, h1]
  · intro h1 h2
    simp [Tok.revealTotalsPublic, h1, h2]
  · intro h1 h2 h3
    rw [h1] at h2
    simp [Tok.revealTotalsPublic, h1, h2, h3]
  · intro h1 h2 h3 h4
    rw [h1] at h2
    simp [Tok.revealTotalsPublic, h1, h2, h3, h4]
  · intro h1 h2 h3 h4
    rw [h1] at h2
    simp [Tok.revealTotalsPublic, h1, h2, h3, h4]

/-- A completed, not-yet-revealed concrete campaign for the reveal path. -/
def tokCamp8 : Tok.Campaign :=
  ⟨1, 7, "t", "d", "u", 100, 1000, ⟨3, [200]⟩, ⟨2, [200]⟩, 2,
   false, true, false, Category.medical⟩

def tokState8 : Tok.State :=
  { tokState1 with campaigns := upd (fun _ => Tok.c0) 1 tokCamp8 }

/-- Counterexample to claim C8 as stated: on a successful reveal the code
does NOT trigger a public-decryption request for the two encrypted
accumulators — the set of issued public-decryption requests stays empty
(in particular it does not gain two entries), the flag is flipped, and the
emitted event carries the two fixed placeholder handles rather than
anything derived from the accumulators. -/
theorem C8_counterexample_reveal_requests_nothing :
    (isOkE (Tok.revealTotalsPublic tokState8 7 1) = true)
    ∧ (((okOr tokState8 (Tok.revealTotalsPublic tokState8 7 1)).campaigns 1).finalAmountRevealed = true)
    ∧ ((okOr tokState8 (Tok.revealTotalsPublic tokState8 7 1)).pubDecryptRequests = [])
    ∧ (¬ 2 ≤ ((okOr tokState8 (Tok.revealTotalsPublic tokState8 7 1)).pubDecryptRequests).length)
    ∧ ((okOr tokState8 (Tok.revealTotalsPublic tokState8 7 1)).events.head?
        = some (Tok.Ev.totalsHandle 1 "total_placeholder" "count_placeholder")) := by
  exact ⟨rfl, rfl, rfl, by decide, rfl⟩

theorem C8_witness :
    (Tok.revealTotalsPublic tokState1 7 1 = .error Tok.Err.stillActive)
    ∧ (isOkE (Tok.revealTotalsPublic tokState8 7 1) = true) := by
  constructor
  · exact (C8_amended_reveal_guards_and_stub tokState1 7 1).2.2.1 rfl (by decide) rfl
  · have h := (C8_amended_reveal_guards_and_stub tokState8 7 1).2.2.2.2 rfl (by decide) rfl rfl
    rw [h]
    rfl

end ClaimEight

section ClaimFive

/-- The indexed loop of getRecentDonations reads exactly the last m
entries of the history, in storage order. -/
theorem range_map_window {α β : Type} (d : List α) (d0 : α) (g : α → β) (m : Nat)
    (hm : m ≤ d.length) :
    (List.range m).map (fun i => g (d.getD (d.length - m + i) d0))
      = (d.drop (d.length - m)).map g := by
  apply List.ext_getElem
  · simp
    omega
  · intro i h1 h2
    simp only [List.getElem_map, List.getElem_range, List.getElem_drop]
    rw [List.getD_eq_getElem d d0 (by simp at h1; omega)]

set_option maxHeartbeats 1000000 in
/-- Claim C5, amended: getRecentDonations returns exactly the most recent
min-of-limit-and-length history entries, but in chronological storage
order — the oldest entry of the window first and the newest last, not
reverse-chronological — and every returned entry whose anonymity flag is
set has the zero-address sentinel in its donor slot. -/
theorem C5_amended_recent_window_oldest_first
    (s : Tok.State) (cid limit : Nat)
    (donors timestamps : List Nat) (anons : List Bool)
    (hrun : Tok.getRecentDonations s cid limit = some (donors, timestamps, anons)) :
    (donors = ((s.campaignDonations cid).drop
        ((s.campaignDonations cid).length - min limit (s.campaignDonations cid).length)).map
        (fun e => if e.isAnonymous then 0 else e.donor))
    ∧ (timestamps = ((s.campaignDonations cid).drop
        ((s.campaignDonations cid).length - min limit (s.campaignDonations cid).length)).map
        (fun e => e.timestamp))
    ∧ (anons = ((s.campaignDonations cid).drop
        ((s.campaignDonations cid).length - min limit (s.campaignDonations cid).length)).map
        (fun e => e.isAnonymous))
    ∧ (∀ i (h1 : i < donors.length) (h2 : i < anons.length),
        anons.get ⟨i, h2⟩ = true → donors.get ⟨i, h1⟩ = 0) := by
  unfold Tok.getRecentDonations at hrun
  split at hrun
  · exact absurd hrun (by simp)
  · dsimp only at hrun
    simp only [Option.some.injEq, Prod.mk.injEq] at hrun
    obtain ⟨hd, ht, ha⟩ := hrun
    have hm : (if limit < (s.campaignDonations cid).length then limit
        else (s.campaignDonations cid).length)
        = min limit (s.campaignDonations cid).length := by
      rw [Nat.min_def]
      split_ifs <;> omega
    rw [hm] at hd ht ha
    subst hd
    subst ht
    subst ha
    refine ⟨?_, ?_, ?_, ?_⟩
    · exact range_map_window (s.campaignDonations cid) Tok.dm0
        (fun e => if e.isAnonymous then 0 else e.donor) _ (Nat.min_le_right _ _)
    · exact range_map_window (s.campaignDonations cid) Tok.dm0
        (fun e => e.timestamp) _ (Nat.min_le_right _ _)
    · exact range_map_window (s.campaignDonations cid) Tok.dm0
        (fun e => e.isAnonymous) _ (Nat.min_le_right _ _)
    · intro i h1 h2 hanon
      simp only [List.get_eq_getElem, List.getElem_map, List.getElem_range] at hanon ⊢
      rw [hanon]
      simp

/-- A concrete history of two entries: donor 5 at time 11 (public), then
an anonymous entry at time 22 whose stored donor field is 6. -/
def tokState5 : Tok.State :=
  { tokState1 with
    campaignDonations := upd (fun _ => []) 1 [⟨5, 1, 11, false⟩, ⟨6, 1, 22, true⟩] }

/-- Counterexample to claim C5 as stated: with both entries requested, the
returned timestamps are in chronological order — the oldest first — not in
the claimed reverse-chronological newest-first order. -/
theorem C5_counterexample_order_not_newest_first :
    ((Tok.getRecentDonations tokState5 1 2).map (fun r => r.2.1) = some [11, 22])
    ∧ [11, 22] ≠ [22, 11] := ⟨rfl, by decide⟩

theorem C5_witness :
    ([5, 0] = ((tokState5.campaignDonations 1).drop
        ((tokState5.campaignDonations 1).length - min 2 (tokState5.campaignDonations 1).length)).map
        (fun e => if e.isAnonymous then 0 else e.donor))
    ∧ ([11, 22] = ((tokState5.campaignDonations 1).drop
        ((tokState5.campaignDonations 1).length - min 2 (tokState5.campaignDonations 1).length)).map
        (fun e => e.timestamp))
    ∧ ([false, true] = ((tokState5.campaignDonations 1).drop
        ((tokState5.campaignDonations 1).length - min 2 (tokState5.campaignDonations 1).length)).map
        (fun e => e.isAnonymous)) :=
  ⟨(C5_amended_recent_window_oldest_first tokState5 1 2 [5, 0] [11, 22] [false, true] rfl).1,
   (C5_amended_recent_window_oldest_first tokState5 1 2 [5, 0] [11, 22] [false, true] rfl).2.1,
   (C5_amended_recent_window_oldest_first tokState5 1 2 [5, 0] [11, 22] [false, true] rfl).2.2.1⟩

end ClaimFive

section ClaimSix

/-- Under the index invariant, positions of equal entries coincide: the
active list holds no duplicates. -/
theorem wfIdx_inj {l : List Nat} {ai : Nat → Nat} (hwf : Tok.wfIdx l ai)
    (i j : Nat) (hi : i < l.length) (hj : j < l.length)
    (h : l[i] = l[j]) : i = j := by
  have h1 := hwf i hi
  have h2 := hwf j hj
  rw [List.getD_eq_getElem l 0 hi] at h1
  rw [List.getD_eq_getElem l 0 hj] at h2
  rw [h] at h1
  omega

set_option maxHeartbeats 1000000 in
/-- Swap-with-last removal: under the index invariant, removing a present
id shortens the list by exactly one, removes exactly that id, and
re-establishes the index invariant for every remaining entry. -/
theorem removeActive_spec (l : List Nat) (ai : Nat → Nat) (cid : Nat)
    (hwf : Tok.wfIdx l ai) (hcid : cid ∈ l) :
    ((Tok.removeActive l ai cid).1.length + 1 = l.length)
    ∧ (∀ x, x ∈ (Tok.removeActive l ai cid).1 ↔ (x ∈ l ∧ x ≠ cid))
    ∧ Tok.wfIdx (Tok.removeActive l ai cid).1 (Tok.removeActive l ai cid).2 := by
  obtain ⟨j, hj, hlj⟩ := List.mem_iff_getElem.mp hcid
  have hidx : ai cid = j := by
    have h := hwf j hj
    rw [List.getD_eq_getElem l 0 hj, hlj] at h
    exact h
  have hn : 0 < l.length := Nat.lt_of_le_of_lt (Nat.zero_le j) hj
  have hl1 : l.length - 1 < l.length := by omega
  simp only [Tok.removeActive, hidx]
  split
  · next hcase =>
    have hjlt : j < l.length - 1 := by omega
    have hlast : ai l[l.length - 1] = l.length - 1 := by
      have h := hwf (l.length - 1) hl1
      rw [List.getD_eq_getElem l 0 hl1] at h
      exact h
    have hlastne : l[l.length - 1] ≠ cid := by
      intro he
      rw [he, hidx] at hlast
      omega
    have hgetD : l.getD (l.length - 1) 0 = l[l.length - 1] :=
      List.getD_eq_getElem l 0 hl1
    rw [hgetD]
    refine ⟨?_, ?_, ?_⟩
    · simp only [List.length_dropLast, List.length_set]
      omega
    · intro x
      constructor
      · intro hx
        obtain ⟨i, hi, hxi⟩ := List.mem_iff_getElem.mp hx
        have hi' : i < l.length - 1 := by
          simpa [List.length_dropLast, List.length_set] using hi
        rw [List.getElem_dropLast, List.getElem_set] at hxi
        by_cases hji : j = i
        · rw [if_pos hji] at hxi
          subst hxi
          exact ⟨List.getElem_mem _, hlastne⟩
        · rw [if_neg hji] at hxi
          subst hxi
          refine ⟨List.getElem_mem _, ?_⟩
          intro he
          have hij : i = j := wfIdx_inj hwf i j (by omega) hj (by rw [hlj, he])
          exact hji hij.symm
      · rintro ⟨hx, hxne⟩
        obtain ⟨k, hk, hlk⟩ := List.mem_iff_getElem.mp hx
        rcases Nat.lt_or_ge k (l.length - 1) with hk1 | hk1
        · have hkj : ¬ j = k := by
            intro he
            apply hxne
            simp only [he] at hlj
            rw [← hlk]
            exact hlj
          refine List.mem_iff_getElem.mpr ⟨k, ?_, ?_⟩
          · simpa [List.length_dropLast, List.length_set] using hk1
          · rw [List.getElem_dropLast, List.getElem_set, if_neg hkj]
            exact hlk
        · have hke : k = l.length - 1 := by omega
          refine List.mem_iff_getElem.mpr ⟨j, ?_, ?_⟩
          · simpa [List.length_dropLast, List.length_set] using hjlt
          · rw [List.getElem_dropLast, List.getElem_set, if_pos rfl, ← hlk]
            congr 1
            omega
    · intro i hi
      have hi' : i < l.length - 1 := by
        simpa [List.length_dropLast, List.length_set] using hi
      rw [List.getD_eq_getElem _ 0 hi, List.getElem_dropLast, List.getElem_set]
      by_cases hji : j = i
      · rw [if_pos hji]
        simp only [upd_apply]
        rw [if_neg hlastne]
        simpa using hji
      · rw [if_neg hji]
        have hne_cid : l[i] ≠ cid := by
          intro he
          exact hji (wfIdx_inj hwf j i hj (by omega) (by rw [hlj, he]))
        have hne_last : l[i] ≠ l[l.length - 1] := by
          intro he
          have hieq : i = l.length - 1 := wfIdx_inj hwf i (l.length - 1) (by omega) hl1 he
          omega
        simp only [upd_apply]
        rw [if_neg hne_cid, if_neg hne_last]
        have h := hwf i (by omega)
        rw [List.getD_eq_getElem l 0 (by omega : i < l.length)] at h
        exact h
  · next hcase =>
    have hje : j = l.length - 1 := by omega
    refine ⟨?_, ?_, ?_⟩
    · simp only [List.length_dropLast]
      omega
    · intro x
      constructor
      · intro hx
        obtain ⟨i, hi, hxi⟩ := List.mem_iff_getElem.mp hx
        have hi' : i < l.length - 1 := by simpa [List.length_dropLast] using hi
        rw [List.getElem_dropLast] at hxi
        subst hxi
        refine ⟨List.getElem_mem _, ?_⟩
        intro he
        have hij : i = j := wfIdx_inj hwf i j (by omega) hj (by rw [hlj, he])
        omega
      · rintro ⟨hx, hxne⟩
        obtain ⟨k, hk, hlk⟩ := List.mem_iff_getElem.mp hx
        have hkj : ¬ k = j := by
          intro he
          apply hxne
          simp only [he] at hlk
          rw [← hlk]
          exact hlj
        refine List.mem_iff_getElem.mpr ⟨k, ?_, ?_⟩
        · simp only [List.length_dropLast]
          omega
        · rw [List.getElem_dropLast]
          exact hlk
    · intro i hi
      have hi' : i < l.length - 1 := by simpa [List.length_dropLast] using hi
      rw [List.getD_eq_getElem _ 0 hi, List.getElem_dropLast]
      have hne_cid : l[i] ≠ cid := by
        intro he
        have hij : i = j := wfIdx_inj hwf i j (by omega) hj (by rw [hlj, he])
        omega
      simp only [upd_apply]
      rw [if_neg hne_cid]
      have h := hwf i (by omega)
      rw [List.getD_eq_getElem l 0 (by omega : i < l.length)] at h
      exact h

set_option maxHeartbeats 1000000 in
/-- Claim C6: on an active campaign held by the active list under its
index invariant, completeCampaign removes exactly that id by swap-with-
last plus index fixup, shortening the active list by exactly one while
every remaining entry's recorded index still points at its position; on an
already-completed campaign it reverts with the already-completed error
(and, reverting, changes nothing). -/
theorem C6_completeCampaign_swap_remove
    (s s' : Tok.State) (sender cid now : Nat) :
    ((Tok.completeCampaign s sender cid now = .ok s') → Tok.activeWF s →
      cid ∈ s.activeCampaigns →
      ((s'.activeCampaigns.length + 1 = s.activeCampaigns.length)
        ∧ (∀ x, x ∈ s'.activeCampaigns ↔ (x ∈ s.activeCampaigns ∧ x ≠ cid))
        ∧ Tok.activeWF s'))
    ∧ ((s.campaigns cid).organizer = sender → sender ≠ 0 →
      (s.campaigns cid).isActive = false →
      Tok.completeCampaign s sender cid now = .error .alreadyCompleted) := by
  constructor
  · intro hrun hwf hcid
    unfold Tok.completeCampaign at hrun
    split at hrun
    · exact absurd hrun (by simp)
    · split at hrun
      · exact absurd hrun (by simp)
      · split at hrun
        · exact absurd hrun (by simp)
        · dsimp only at hrun
          injection hrun with hs'
          subst hs'
          have h := removeActive_spec s.activeCampaigns s.activeIdx cid hwf hcid
          exact ⟨h.1, h.2.1, h.2.2⟩
  · intro h1 h2 h3
    rw [Tok.completeCampaign, if_neg (by rw [h1]; exact h2), if_neg (by rw [h1]; simp),
      if_pos (by rw [h3])]

/-- Three live campaigns of one organizer, index map in its invariant. -/
def tokCampN (i : Nat) : Tok.Campaign :=
  ⟨i, 9, "t", "d", "u", 100, 1000, ⟨0, [200]⟩, ⟨0, [200]⟩, 0,
   true, false, false, Category.other⟩

def tokState6 : Tok.State :=
  { tokState1 with
    campaigns := upd (upd (upd (fun _ => Tok.c0) 1 (tokCampN 1)) 2 (tokCampN 2)) 3 (tokCampN 3),
    allCampaigns := [1, 2, 3],
    activeCampaigns := [1, 2, 3],
    activeIdx := upd (upd (upd (fun _ => 0) 1 0) 2 1) 3 2 }

def tokState6r : Tok.State := okOr tokState6 (Tok.completeCampaign tokState6 9 1 600)

theorem C6_witness :
    (Tok.completeCampaign tokState6 9 1 600 = .ok tokState6r)
    ∧ (tokState6r.activeCampaigns.length + 1 = tokState6.activeCampaigns.length)
    ∧ (tokState6r.activeCampaigns = [3, 2])
    ∧ (tokState6r.activeIdx 3 = 0)
    ∧ (tokState6r.activeIdx 2 = 1) := by
  refine ⟨rfl, ?_, rfl, rfl, rfl⟩
  exact ((C6_completeCampaign_swap_remove tokState6 tokState6r 9 1 600).1
    rfl (by decide) (by decide)).1

end ClaimSix
